import Mathlib

/-!
Shallow embedding of `research/deeplab/datasets/regression_dataset_mP.py`:
the dataset registry (`_DATASETS_INFORMATION` with its single entry
`_APOLLOSCAPE_INFORMATION`) and the resolver `get_dataset`, together with
the slim `Dataset` handle fields the resolver fills in and the
TF-example decoding schema it builds.

Python dictionaries whose construction order is fixed by a literal are
embedded as association lists (`List (String × _)`); dictionary membership
and indexing are `List.lookup`.  `ValueError` is embedded as
`Except String`, carrying the exact message the source formats.
-/

namespace RegDataset

/-- Element dtypes named by the schema (`tf.string`, `tf.int64`,
`tf.float32`, `tf.uint8`, `tf.uint16`). -/
inductive DType where
  | string
  | int64
  | float32
  | uint8
  | uint16
  deriving DecidableEq, Repr

/-- Default value stored in a `FixedLenFeature` (a string or an integer,
matching the two dtypes given defaults in the source). -/
inductive DefaultVal where
  | str (s : String)
  | int (n : Int)
  deriving DecidableEq, Repr

/-- One entry of `keys_to_features`: either
`tf.FixedLenFeature(shape, dtype, default_value)` (the source always passes
shape `()`, embedded as `[]`) or `tf.VarLenFeature(dtype)`. -/
inductive FeatureSpec where
  | FixedLenFeature (shape : List Nat) (dtype : DType) (default : DefaultVal)
  | VarLenFeature (dtype : DType)
  deriving DecidableEq, Repr

/-- One entry of `items_to_handlers`: `tfexample_decoder.Image(image_key,
format_key, channels, dtype)` (dtype is `uint8` when the call site omits it,
the collaborator's default) or `tfexample_decoder.Tensor(tensor_key)`. -/
inductive Handler where
  | Image (image_key : String) (format_key : String) (channels : Nat) (dtype : DType)
  | Tensor (tensor_key : String)
  deriving DecidableEq, Repr

/-- Embedding of `tfexample_decoder.TFExampleDecoder(keys_to_features, items_to_handlers)`. -/
structure TFExampleDecoder where
  keys_to_features : List (String × FeatureSpec)
  items_to_handlers : List (String × Handler)
  deriving DecidableEq, Repr

/-- The reader class handed to the slim dataset (`tf.TFRecordReader`). -/
inductive ReaderKind where
  | TFRecordReader
  deriving DecidableEq, Repr

/-- The caller configuration (`FLAGS`).  The resolver consumes only
`FLAGS.if_depth`; every other option the caller may carry is kept opaque in
`other_options` so that non-dependence on it is expressible. -/
structure Flags where
  if_depth : Bool
  other_options : List (String × String)
  deriving DecidableEq, Repr

/-- Embedding of the `DatasetDescriptor` named tuple (fields in source order; the
commented-out fields of the source are omitted as the source omits them).
`pose_range` entries are `[min, max]` pairs of decimal literals, embedded
as rationals. -/
structure DatasetDescriptor where
  splits_to_sizes : List (String × Nat)
  num_classes : Nat
  shape_dims : Nat
  shape_bins : Nat
  height_ori : Nat
  width_ori : Nat
  pose_range : List (ℚ × ℚ)
  bin_nums : List Nat
  output_names : List String
  output_names_summary : List String
  deriving DecidableEq, Repr

/-- The slim `dataset.Dataset` handle, with exactly the keyword arguments
`get_dataset` passes (in source order). -/
structure Dataset where
  data_sources : String
  reader : ReaderKind
  decoder : TFExampleDecoder
  num_samples : Nat
  items_to_descriptions : List (String × String)
  pose_range : List (ℚ × ℚ)
  bin_nums : List Nat
  SHAPE_DIMS : Nat
  output_names : List String
  output_names_summary : List String
  num_classes : Nat
  SHAPE_BINS : Nat
  POSE_BINS : Nat
  name : String
  height_ori : Nat
  width_ori : Nat
  multi_label : Bool
  if_depth : Bool
  deriving DecidableEq, Repr

/-- Embedding of `_ITEMS_TO_DESCRIPTIONS` (the two adjacent Python string literals of the
second value concatenate into one string). -/
def ITEMS_TO_DESCRIPTIONS : List (String × String) :=
  [("image", "A color image of varying height and width."),
   ("labels_class",
    "A semantic regression label whose size matches image." ++
    "Its values range from 0 (background) to real values (pose and shape representations).")]

/-- Constant `SHAPE_DIMS = 10`. -/
def SHAPE_DIMS : Nat := 10

/-- Constant `SHAPE_BINS = 32`. -/
def SHAPE_BINS : Nat := 32

/-- Constant `POSE_BINS = 128`. -/
def POSE_BINS : Nat := 128

/-- Embedding of the `_APOLLOSCAPE_INFORMATION` literal descriptor. -/
def _APOLLOSCAPE_INFORMATION : DatasetDescriptor where
  splits_to_sizes := [("train", 4611), ("val", 480), ("test", 1041)]
  num_classes := 7 + 2
  shape_dims := SHAPE_DIMS
  shape_bins := SHAPE_BINS
  height_ori := 678
  width_ori := 1692
  pose_range := [(-1, 1), (-1, 1), (-1, 1), (-1, 1),
                 (-0, 0), (-0, 0), (11/10, 350), (0, 0)]
  bin_nums := List.replicate 4 POSE_BINS ++ [1, 1, POSE_BINS, 1] ++
              List.replicate SHAPE_DIMS SHAPE_BINS
  output_names := ["q1", "q2", "q3", "q4", "x", "y", "z_log_dense", "z_log_offset"] ++
                  (List.range SHAPE_DIMS).map (fun dim => "shape_" ++ toString dim)
  output_names_summary := ["q1", "q2", "q3", "q4", "x", "y", "z_object"] ++
                          (List.range SHAPE_DIMS).map (fun dim => "shape_" ++ toString dim)

/-- Embedding of the `_DATASETS_INFORMATION` registry. -/
def _DATASETS_INFORMATION : List (String × DatasetDescriptor) :=
  [("apolloscape", _APOLLOSCAPE_INFORMATION)]

/-- Python `'%s-*' % split_name`: the split name substituted into the fixed
template `_FILE_PATTERN = '%s-*'`. -/
def formatFilePattern (split_name : String) : String :=
  split_name ++ "-*"

/-- Embedding of `os.path.join(a, b)` for two components (posixpath): an absolute second
component replaces the first; otherwise a separator is inserted unless the
first component is empty or already ends with one.  The slash tests are
expressed on the character list of each string. -/
def os_path_join (a b : String) : String :=
  if b.data.head? = some '/' then b
  else if a = "" ∨ a.data.getLast? = some '/' then a ++ b
  else a ++ "/" ++ b

/-- Table `keys_to_features` built for every split except `'test'`
(source lines 184–216, in source order). -/
def keysToFeaturesFull : List (String × FeatureSpec) :=
  [("image/encoded", .FixedLenFeature [] .string (.str "")),
   ("image/filename", .FixedLenFeature [] .string (.str "")),
   ("image/format", .FixedLenFeature [] .string (.str "png")),
   ("image/height", .FixedLenFeature [] .int64 (.int 0)),
   ("image/width", .FixedLenFeature [] .int64 (.int 0)),
   ("posedict/encoded", .VarLenFeature .float32),
   ("rotuvddict/encoded", .VarLenFeature .float32),
   ("bboxdict/encoded", .VarLenFeature .float32),
   ("shapeiddict/encoded", .VarLenFeature .float32),
   ("vis/encoded", .FixedLenFeature [] .string (.str "")),
   ("vis/format", .FixedLenFeature [] .string (.str "png")),
   ("depth/encoded", .FixedLenFeature [] .string (.str "")),
   ("depth/format", .FixedLenFeature [] .string (.str "png")),
   ("seg/encoded", .FixedLenFeature [] .string (.str "")),
   ("seg/format", .FixedLenFeature [] .string (.str "png")),
   ("shape_id_map/encoded", .FixedLenFeature [] .string (.str "")),
   ("shape_id_map/format", .FixedLenFeature [] .string (.str "png"))]

/-- Table `items_to_handlers` built for every split except `'test'`
(source lines 217–247). -/
def itemsToHandlersFull : List (String × Handler) :=
  [("image", .Image "image/encoded" "image/format" 3 .uint8),
   ("vis", .Image "vis/encoded" "vis/format" 3 .uint8),
   ("depth", .Image "depth/encoded" "depth/format" 1 .uint16),
   ("seg", .Image "seg/encoded" "seg/format" 1 .uint8),
   ("image_name", .Tensor "image/filename"),
   ("height", .Tensor "image/height"),
   ("width", .Tensor "image/width"),
   ("pose_dict", .Tensor "posedict/encoded"),
   ("rotuvd_dict", .Tensor "rotuvddict/encoded"),
   ("bbox_dict", .Tensor "bboxdict/encoded"),
   ("shape_id_dict", .Tensor "shapeiddict/encoded"),
   ("shape_id_map", .Image "shape_id_map/encoded" "shape_id_map/format" 1 .uint8)]

/-- Table `keys_to_features` built for the `'test'` split (source lines 249–264). -/
def keysToFeaturesTest : List (String × FeatureSpec) :=
  [("image/encoded", .FixedLenFeature [] .string (.str "")),
   ("image/filename", .FixedLenFeature [] .string (.str "")),
   ("image/format", .FixedLenFeature [] .string (.str "png")),
   ("image/height", .FixedLenFeature [] .int64 (.int 0)),
   ("image/width", .FixedLenFeature [] .int64 (.int 0)),
   ("seg/encoded", .FixedLenFeature [] .string (.str "")),
   ("seg/format", .FixedLenFeature [] .string (.str "png"))]

/-- Table `items_to_handlers` built for the `'test'` split (source lines 265–277). -/
def itemsToHandlersTest : List (String × Handler) :=
  [("image", .Image "image/encoded" "image/format" 3 .uint8),
   ("seg", .Image "seg/encoded" "seg/format" 1 .uint8),
   ("image_name", .Tensor "image/filename"),
   ("height", .Tensor "image/height"),
   ("width", .Tensor "image/width")]

/-- The message of `ValueError('The specified dataset is not supported yet.')`. -/
def unsupportedMsg : String := "The specified dataset is not supported yet."

/-- The message of `ValueError('data split name %s not recognized' % split_name)`. -/
def splitMsg (split_name : String) : String :=
  "data split name " ++ split_name ++ " not recognized"

/-- The handle constructed by the tail of `get_dataset` (source lines
179–303) once both lookups have succeeded: the file pattern, the
split-dependent decoding schema, and the `dataset.Dataset(...)` keyword
arguments in source order. -/
def mkDataset (FLAGS : Flags) (dataset_name split_name dataset_dir : String)
    (info : DatasetDescriptor) (split_size : Nat) : Dataset :=
  let file_pattern := os_path_join dataset_dir (formatFilePattern split_name)
  let kf := if split_name ≠ "test" then keysToFeaturesFull else keysToFeaturesTest
  let ih := if split_name ≠ "test" then itemsToHandlersFull else itemsToHandlersTest
  { data_sources := file_pattern
    reader := .TFRecordReader
    decoder := { keys_to_features := kf, items_to_handlers := ih }
    num_samples := split_size
    items_to_descriptions := ITEMS_TO_DESCRIPTIONS
    pose_range := info.pose_range
    bin_nums := info.bin_nums
    SHAPE_DIMS := info.shape_dims
    output_names := info.output_names
    output_names_summary := info.output_names_summary
    num_classes := info.num_classes
    SHAPE_BINS := info.shape_bins
    POSE_BINS := POSE_BINS
    name := dataset_name
    height_ori := info.height_ori
    width_ori := info.width_ori
    multi_label := true
    if_depth := FLAGS.if_depth }

/-- Resolver `get_dataset` generalized over the module-level registry it reads (the
registry is a parameter so that facts holding for every registry contents are
statable); the source body reads `_DATASETS_INFORMATION` at each access. -/
def get_dataset_in (reg : List (String × DatasetDescriptor)) (FLAGS : Flags)
    (dataset_name split_name dataset_dir : String) : Except String Dataset :=
  match reg.lookup dataset_name with
  | none => .error unsupportedMsg
  | some info =>
    match info.splits_to_sizes.lookup split_name with
    | none => .error (splitMsg split_name)
    | some split_size =>
      .ok (mkDataset FLAGS dataset_name split_name dataset_dir info split_size)

/-- Resolver `get_dataset(FLAGS, dataset_name, split_name, dataset_dir)` against the
module-level registry. -/
def get_dataset (FLAGS : Flags) (dataset_name split_name dataset_dir : String) :
    Except String Dataset :=
  get_dataset_in _DATASETS_INFORMATION FLAGS dataset_name split_name dataset_dir

/-- State-passing rendering of a call: the module-level tables a call can
observe or replace, threaded explicitly.  The source body only reads the
registry, so the translation returns it unchanged alongside the result. -/
def get_dataset_run (reg : List (String × DatasetDescriptor)) (FLAGS : Flags)
    (dataset_name split_name dataset_dir : String) :
    Except String Dataset × List (String × DatasetDescriptor) :=
  (get_dataset_in reg FLAGS dataset_name split_name dataset_dir, reg)

/-! ## Helper lemmas -/

/-- Closed form of the registry lookup. -/
lemma registry_lookup_eq (name : String) :
    _DATASETS_INFORMATION.lookup name =
      if name = "apolloscape" then some _APOLLOSCAPE_INFORMATION else none := by
  by_cases h : name = "apolloscape"
  · subst h; rfl
  · simp [_DATASETS_INFORMATION, List.lookup_cons, h, beq_eq_false_iff_ne.mpr h]

/-- Closed form of the apolloscape split-size lookup. -/
lemma apolloscape_lookup_eq (split : String) :
    _APOLLOSCAPE_INFORMATION.splits_to_sizes.lookup split =
      if split = "train" then some 4611
      else if split = "val" then some 480
      else if split = "test" then some 1041
      else none := by
  by_cases h1 : split = "train"
  · subst h1; rfl
  · by_cases h2 : split = "val"
    · subst h2; rfl
    · by_cases h3 : split = "test"
      · subst h3; rfl
      · simp [_APOLLOSCAPE_INFORMATION, List.lookup_cons, h1, h2, h3,
              beq_eq_false_iff_ne.mpr h1, beq_eq_false_iff_ne.mpr h2,
              beq_eq_false_iff_ne.mpr h3]

/-- A successful apolloscape split lookup pins the split to one of the three
declared names. -/
lemma apolloscape_split_cases {split : String} {n : Nat}
    (h : _APOLLOSCAPE_INFORMATION.splits_to_sizes.lookup split = some n) :
    split = "train" ∨ split = "val" ∨ split = "test" := by
  rw [apolloscape_lookup_eq] at h
  by_cases h1 : split = "train"
  · exact Or.inl h1
  · by_cases h2 : split = "val"
    · exact Or.inr (Or.inl h2)
    · by_cases h3 : split = "test"
      · exact Or.inr (Or.inr h3)
      · simp [h1, h2, h3] at h

/-- Inversion of a successful call: both lookups succeeded and the result is
the constructed handle. -/
lemma get_dataset_in_ok_elim {reg : List (String × DatasetDescriptor)} {f : Flags}
    {name split dir : String} {d : Dataset}
    (h : get_dataset_in reg f name split dir = .ok d) :
    ∃ info split_size, reg.lookup name = some info ∧
      info.splits_to_sizes.lookup split = some split_size ∧
      d = mkDataset f name split dir info split_size := by
  unfold get_dataset_in at h
  split at h
  · exact absurd h (by simp)
  · rename_i info hinfo
    split at h
    · exact absurd h (by simp)
    · rename_i split_size hsize
      injection h with h
      exact ⟨info, split_size, hinfo, hsize, h.symm⟩

/-- Introduction of a successful call from two successful lookups. -/
lemma get_dataset_in_ok_intro {reg : List (String × DatasetDescriptor)} {f : Flags}
    {name split dir : String} {info : DatasetDescriptor} {split_size : Nat}
    (h1 : reg.lookup name = some info)
    (h2 : info.splits_to_sizes.lookup split = some split_size) :
    get_dataset_in reg f name split dir = .ok (mkDataset f name split dir info split_size) := by
  simp only [get_dataset_in, h1, h2]

/-- A failed registry lookup yields the unsupported-dataset error. -/
lemma get_dataset_in_err_dataset {reg : List (String × DatasetDescriptor)} {f : Flags}
    {name split dir : String} (h : reg.lookup name = none) :
    get_dataset_in reg f name split dir = .error unsupportedMsg := by
  simp only [get_dataset_in, h]

/-- A failed split lookup yields the unrecognized-split error. -/
lemma get_dataset_in_err_split {reg : List (String × DatasetDescriptor)} {f : Flags}
    {name split dir : String} {info : DatasetDescriptor}
    (h1 : reg.lookup name = some info)
    (h2 : info.splits_to_sizes.lookup split = none) :
    get_dataset_in reg f name split dir = .error (splitMsg split) := by
  simp only [get_dataset_in, h1, h2]

/-- The two error messages are distinct, whatever the split name: their first
characters differ. -/
lemma unsupportedMsg_ne_splitMsg (s : String) : unsupportedMsg ≠ splitMsg s := by
  intro h
  have h2 : unsupportedMsg.data.head? = (splitMsg s).data.head? := by rw [h]
  rw [unsupportedMsg, splitMsg, String.data_append, String.data_append,
      List.head?_append, List.head?_append] at h2
  have h3 : "The specified dataset is not supported yet.".data.head? = some 'T' := rfl
  have h4 : "data split name ".data.head? = some 'd' := rfl
  rw [h3, h4, Option.or_some, Option.or_some] at h2
  injection h2 with h5
  exact absurd h5 (by decide)

/-! ## Claim theorems -/

/-- C1: for the registered dataset "apolloscape", calling `get_dataset` with
any of its declared split names ("train", "val", "test") succeeds and returns
a handle whose `num_samples` equals the literal configured for that split:
4611 for "train", 480 for "val", 1041 for "test" — for every caller
configuration and directory. -/
theorem get_dataset_apolloscape_split_sizes :
    ∀ (f : Flags) (dir : String),
      (get_dataset f "apolloscape" "train" dir).map Dataset.num_samples = .ok 4611 ∧
      (get_dataset f "apolloscape" "val" dir).map Dataset.num_samples = .ok 480 ∧
      (get_dataset f "apolloscape" "test" dir).map Dataset.num_samples = .ok 1041 :=
  fun _ _ => ⟨rfl, rfl, rfl⟩

/-- C2: for every dataset name absent from the registry, every split name and
every directory, `get_dataset` fails with the unsupported-dataset error — a
message distinct from every unrecognized-split message. -/
theorem get_dataset_unregistered_error (f : Flags) (name split dir : String)
    (h : _DATASETS_INFORMATION.lookup name = none) :
    get_dataset f name split dir = .error unsupportedMsg ∧
    unsupportedMsg ≠ splitMsg split :=
  ⟨get_dataset_in_err_dataset h, unsupportedMsg_ne_splitMsg split⟩

/-- Witness for C2 at the unregistered name "nonexistent" and the (otherwise
valid) split name "train". -/
theorem get_dataset_unregistered_error_witness :
    get_dataset ⟨true, []⟩ "nonexistent" "train" "dir" = .error unsupportedMsg ∧
    unsupportedMsg ≠ splitMsg "train" :=
  get_dataset_unregistered_error ⟨true, []⟩ "nonexistent" "train" "dir" rfl

/-- C3: for the registered dataset "apolloscape" and every split name that is
not a key of its `splits_to_sizes`, `get_dataset` fails with the
unrecognized-split error; and in general a call succeeds if and only if the
dataset name is registered and the split name is a key of that dataset's
`splits_to_sizes`. -/
theorem get_dataset_split_error_and_success_iff :
    (∀ (f : Flags) (split dir : String),
       _APOLLOSCAPE_INFORMATION.splits_to_sizes.lookup split = none →
       get_dataset f "apolloscape" split dir = .error (splitMsg split)) ∧
    (∀ (f : Flags) (name split dir : String),
       (∃ d, get_dataset f name split dir = .ok d) ↔
       (∃ info, _DATASETS_INFORMATION.lookup name = some info ∧
          ∃ n, info.splits_to_sizes.lookup split = some n)) := by
  constructor
  · intro f split dir h
    exact get_dataset_in_err_split rfl h
  · intro f name split dir
    constructor
    · rintro ⟨d, hd⟩
      obtain ⟨info, n, h1, h2, _⟩ := get_dataset_in_ok_elim hd
      exact ⟨info, h1, n, h2⟩
    · rintro ⟨info, h1, n, h2⟩
      exact ⟨_, get_dataset_in_ok_intro h1 h2⟩

/-- Witness for C3 at the unknown split name "trainval". -/
theorem get_dataset_split_error_witness :
    get_dataset ⟨false, []⟩ "apolloscape" "trainval" "dir" = .error (splitMsg "trainval") :=
  get_dataset_split_error_and_success_iff.1 ⟨false, []⟩ "trainval" "dir" rfl

/-- C4 counterexample: for the successful call with directory "data/" (a
directory already ending in a separator) the handle's file pattern is
"data/train-*", not the literal interpolation "data/" + "/" + "train-*". -/
theorem get_dataset_file_pattern_counterexample :
    (get_dataset ⟨true, []⟩ "apolloscape" "train" "data/").map Dataset.data_sources
      = .ok "data/train-*" ∧
    "data/train-*" ≠ "data/" ++ "/" ++ ("train" ++ "-*") :=
  ⟨rfl, by decide⟩

/-- C4 (amended): for every successful call, the file pattern carried by the
returned handle equals `os.path.join(dataset_dir, split_name ++ "-*")`;
whenever the directory is nonempty and does not already end with a separator
this is exactly "<dataset_dir>/<split_name>-*". -/
theorem get_dataset_file_pattern (f : Flags) (name split dir : String) (d : Dataset)
    (h : get_dataset f name split dir = .ok d) :
    d.data_sources = os_path_join dir (split ++ "-*") ∧
    (dir ≠ "" → dir.data.getLast? ≠ some '/' →
      d.data_sources = dir ++ "/" ++ (split ++ "-*")) := by
  obtain ⟨info, n, h1, h2, rfl⟩ := get_dataset_in_ok_elim h
  refine ⟨rfl, fun hne hslash => ?_⟩
  rw [registry_lookup_eq] at h1
  by_cases hn : name = "apolloscape"
  · rw [if_pos hn] at h1
    injection h1 with h1
    subst h1
    rcases apolloscape_split_cases h2 with rfl | rfl | rfl <;>
      · simp only [mkDataset, formatFilePattern]
        unfold os_path_join
        rw [if_neg (by decide), if_neg (fun hc => hc.elim hne hslash)]
  · rw [if_neg hn] at h1
    cases h1

/-- Witness for C4 at a separator-free nonempty directory. -/
theorem get_dataset_file_pattern_witness :
    (mkDataset ⟨true, []⟩ "apolloscape" "train" "data" _APOLLOSCAPE_INFORMATION 4611).data_sources
      = "data" ++ "/" ++ ("train" ++ "-*") :=
  (get_dataset_file_pattern ⟨true, []⟩ "apolloscape" "train" "data" _ rfl).2
    (by decide) (by decide)

/-- C5 counterexample: the schema built for the non-test split "train"
declares 17 record keys, not fourteen, and the schema built for "test"
declares 7 record keys, not five. -/
theorem get_dataset_schema_keys_counterexample :
    (get_dataset ⟨true, []⟩ "apolloscape" "train" "d").map
        (fun ds => ds.decoder.keys_to_features.length) = .ok 17 ∧
    (get_dataset ⟨true, []⟩ "apolloscape" "test" "d").map
        (fun ds => ds.decoder.keys_to_features.length) = .ok 7 ∧
    ¬((17 : Nat) = 14 ∧ (7 : Nat) = 5) :=
  ⟨rfl, rfl, by decide⟩

/-- C5 (amended): for every successful call, a non-"test" split's schema
declares exactly the seventeen record keys of the full schema (the image/*,
posedict, rotuvddict, bboxdict, shapeiddict, vis/*, depth/*, seg/* and
shape_id_map/* fields, in source order), and the "test" split's schema
declares exactly the seven reduced keys (image/* and seg/* only), with none
of the pose, shape, depth, or vis fields present. -/
theorem get_dataset_schema_keys (f : Flags) (name split dir : String) (d : Dataset)
    (h : get_dataset f name split dir = .ok d) :
    (split ≠ "test" → d.decoder.keys_to_features.map Prod.fst =
      ["image/encoded", "image/filename", "image/format", "image/height", "image/width",
       "posedict/encoded", "rotuvddict/encoded", "bboxdict/encoded", "shapeiddict/encoded",
       "vis/encoded", "vis/format", "depth/encoded", "depth/format", "seg/encoded",
       "seg/format", "shape_id_map/encoded", "shape_id_map/format"]) ∧
    (split = "test" → d.decoder.keys_to_features.map Prod.fst =
      ["image/encoded", "image/filename", "image/format", "image/height", "image/width",
       "seg/encoded", "seg/format"]) := by
  obtain ⟨info, n, h1, h2, rfl⟩ := get_dataset_in_ok_elim h
  constructor
  · intro hs
    have hk : (mkDataset f name split dir info n).decoder.keys_to_features
        = keysToFeaturesFull := by
      show (if split ≠ "test" then keysToFeaturesFull else keysToFeaturesTest)
          = keysToFeaturesFull
      rw [if_pos hs]
    rw [hk]
    rfl
  · intro hs
    subst hs
    rfl

/-- Witness for C5 at the non-test split "train". -/
theorem get_dataset_schema_keys_witness :
    (mkDataset ⟨true, []⟩ "apolloscape" "train" "d" _APOLLOSCAPE_INFORMATION
        4611).decoder.keys_to_features.map Prod.fst =
      ["image/encoded", "image/filename", "image/format", "image/height", "image/width",
       "posedict/encoded", "rotuvddict/encoded", "bboxdict/encoded", "shapeiddict/encoded",
       "vis/encoded", "vis/format", "depth/encoded", "depth/format", "seg/encoded",
       "seg/format", "shape_id_map/encoded", "shape_id_map/format"] :=
  (get_dataset_schema_keys ⟨true, []⟩ "apolloscape" "train" "d" _ rfl).1 (by decide)

/-- C6 counterexample: in the registered descriptor, `pose_range` has 8
entries while `bin_nums` has 18, so their lengths are not equal (and in
particular not both 18). -/
theorem apolloscape_pose_range_bin_nums_counterexample :
    _APOLLOSCAPE_INFORMATION.pose_range.length = 8 ∧
    _APOLLOSCAPE_INFORMATION.bin_nums.length = 18 ∧
    _APOLLOSCAPE_INFORMATION.pose_range.length ≠ _APOLLOSCAPE_INFORMATION.bin_nums.length :=
  ⟨rfl, rfl, by decide⟩

/-- C6 (amended): in the registered descriptor, `bin_nums` has 18 entries
(shape_dims = 10 plus 8 fixed pose channels) while `pose_range` has 8 entries
(one per fixed pose channel only); the two lengths differ. -/
theorem apolloscape_bin_nums_length :
    _APOLLOSCAPE_INFORMATION.bin_nums.length = _APOLLOSCAPE_INFORMATION.shape_dims + 8 ∧
    _APOLLOSCAPE_INFORMATION.bin_nums.length = 18 ∧
    _APOLLOSCAPE_INFORMATION.pose_range.length = 8 :=
  ⟨rfl, rfl, rfl⟩

/-- C7: for every successful call, the depth-inclusion flag in the returned
handle equals the value passed in the caller configuration, unchanged. -/
theorem get_dataset_if_depth (f : Flags) (name split dir : String) (d : Dataset)
    (h : get_dataset f name split dir = .ok d) :
    d.if_depth = f.if_depth := by
  obtain ⟨info, n, h1, h2, rfl⟩ := get_dataset_in_ok_elim h
  rfl

/-- Witness for C7 at both values of the caller's depth option. -/
theorem get_dataset_if_depth_witness :
    (mkDataset ⟨true, []⟩ "apolloscape" "train" "d" _APOLLOSCAPE_INFORMATION 4611).if_depth
        = (⟨true, []⟩ : Flags).if_depth ∧
    (mkDataset ⟨false, []⟩ "apolloscape" "val" "d" _APOLLOSCAPE_INFORMATION 480).if_depth
        = (⟨false, []⟩ : Flags).if_depth :=
  ⟨get_dataset_if_depth ⟨true, []⟩ "apolloscape" "train" "d" _ rfl,
   get_dataset_if_depth ⟨false, []⟩ "apolloscape" "val" "d" _ rfl⟩

/-- C8: the resolver is pure and deterministic — a call returns the
module-level registry unchanged, and its outcome depends only on the one
consumed configuration option and the three string arguments, so two calls
with equal consumed inputs produce equal outcomes. -/
theorem get_dataset_pure_deterministic :
    (∀ (reg : List (String × DatasetDescriptor)) (f : Flags) (name split dir : String),
       (get_dataset_run reg f name split dir).2 = reg) ∧
    (∀ (f f' : Flags) (name split dir : String),
       f.if_depth = f'.if_depth →
       get_dataset f name split dir = get_dataset f' name split dir) := by
  constructor
  · intro reg f name split dir
    rfl
  · intro f f' name split dir hfd
    unfold get_dataset
    cases hr : _DATASETS_INFORMATION.lookup name with
    | none =>
      rw [get_dataset_in_err_dataset hr, get_dataset_in_err_dataset hr]
    | some info =>
      cases hs : info.splits_to_sizes.lookup split with
      | none =>
        rw [get_dataset_in_err_split hr hs, get_dataset_in_err_split hr hs]
      | some n =>
        rw [get_dataset_in_ok_intro hr hs, get_dataset_in_ok_intro hr hs]
        simp [mkDataset, hfd]

/-- Witness for C8: the registry is returned unchanged, and two caller
configurations equal on the consumed option but differing elsewhere give the
same outcome. -/
theorem get_dataset_pure_deterministic_witness :
    (get_dataset_run _DATASETS_INFORMATION ⟨true, []⟩ "apolloscape" "train" "d").2
        = _DATASETS_INFORMATION ∧
    get_dataset ⟨true, []⟩ "apolloscape" "train" "d"
        = get_dataset ⟨true, [("other_option", "1")]⟩ "apolloscape" "train" "d" :=
  ⟨get_dataset_pure_deterministic.1 _DATASETS_INFORMATION ⟨true, []⟩ "apolloscape" "train" "d",
   get_dataset_pure_deterministic.2 ⟨true, []⟩ ⟨true, [("other_option", "1")]⟩
     "apolloscape" "train" "d" rfl⟩

/-- C9 counterexample: `output_names` has 18 entries but
`output_names_summary` has only 17, so the summary ordering does not have
shape_dims + 8 entries. -/
theorem apolloscape_output_names_counterexample :
    _APOLLOSCAPE_INFORMATION.output_names.length = 18 ∧
    _APOLLOSCAPE_INFORMATION.output_names_summary.length = 17 ∧
    _APOLLOSCAPE_INFORMATION.output_names_summary.length ≠
      _APOLLOSCAPE_INFORMATION.shape_dims + 8 :=
  ⟨rfl, rfl, by decide⟩

/-- C9 (amended): `output_names` has shape_dims + 8 = 18 entries (8 fixed
pose channels plus 10 shape channels); `output_names_summary` has
shape_dims + 7 = 17 entries (its pose part has only 7 labels). -/
theorem apolloscape_output_names_length :
    _APOLLOSCAPE_INFORMATION.output_names.length = _APOLLOSCAPE_INFORMATION.shape_dims + 8 ∧
    _APOLLOSCAPE_INFORMATION.output_names.length = 18 ∧
    _APOLLOSCAPE_INFORMATION.output_names_summary.length
        = _APOLLOSCAPE_INFORMATION.shape_dims + 7 ∧
    _APOLLOSCAPE_INFORMATION.output_names_summary.length = 17 :=
  ⟨rfl, rfl, rfl, rfl⟩

/-- C10: whatever the registry contents, every handle a successful call
returns carries the module-level constant `POSE_BINS = 128`; since the pose
bin count is not a descriptor field, no registry entry can override it. -/
theorem get_dataset_POSE_BINS_constant (reg : List (String × DatasetDescriptor)) (f : Flags)
    (name split dir : String) (d : Dataset)
    (h : get_dataset_in reg f name split dir = .ok d) :
    d.POSE_BINS = POSE_BINS ∧ d.POSE_BINS = 128 := by
  obtain ⟨info, n, h1, h2, rfl⟩ := get_dataset_in_ok_elim h
  exact ⟨rfl, rfl⟩

/-- Witness for C10 at the module-level registry. -/
theorem get_dataset_POSE_BINS_constant_witness :
    (mkDataset ⟨true, []⟩ "apolloscape" "train" "d" _APOLLOSCAPE_INFORMATION 4611).POSE_BINS
        = POSE_BINS ∧
    (mkDataset ⟨true, []⟩ "apolloscape" "train" "d" _APOLLOSCAPE_INFORMATION 4611).POSE_BINS
        = 128 :=
  get_dataset_POSE_BINS_constant _DATASETS_INFORMATION ⟨true, []⟩ "apolloscape" "train" "d" _ rfl

end RegDataset
